import Mathlib

/-!
Verification development for the pipeline execution engine of the
Query_Based_DB_Bot repository.

The definitions below are a shallow embedding of the relevant parts of
`src/fapp.py` (task registry, logging helpers, approval endpoint, review
endpoint, pipeline engine) and `src/modules/script_Runner.py` (fence
stripping, per-file size-stability polling, artifact filtering, and the
exit-code conventions of `run_python_code`).  Machine-level effects
(wall-clock time, subprocess execution, the filesystem) are abstracted as
explicit inputs: the directory listing taken before the run, the listing and
per-poll file sizes observed after the run, a poll budget ("fuel") standing
for the maximum total stability wait, and an execution outcome describing
how the child process behaved.
-/

namespace QueryDbBot

/-! ## List and character utilities mirroring the Python string operations -/

/-- Membership of a name in a list of names (Python `n in before_set`). -/
def memName (n : String) : List String → Bool
  | [] => false
  | m :: rest => if m = n then true else memName n rest

/-- Association-list lookup, mirroring Python `dict.get`: the task registry
and the approval-event registry are dictionaries keyed by task id. -/
def lookupA {α : Type} : List (String × α) → String → Option α
  | [], _ => none
  | p :: rest, key => if p.1 = key then some p.2 else lookupA rest key

/-- Boolean test that `sep` is a leading segment of `s`
(Python `str.startswith`). -/
def listHasPre : List Char → List Char → Bool
  | [], _ => true
  | _ :: _, [] => false
  | a :: s1, b :: s2 => decide (a = b) && listHasPre s1 s2

/-- First-occurrence split (Python `s.split(sep, 1)` when `sep` occurs in
`s`): returns the segment before the first occurrence of `sep` and the
segment after it, or `none` when `sep` does not occur. -/
def splitFirst (sep : List Char) : List Char → Option (List Char × List Char)
  | [] => if sep = [] then some ([], []) else none
  | c :: rest =>
    if listHasPre sep (c :: rest) then some ([], (c :: rest).drop sep.length)
    else (splitFirst sep rest).map (fun p => (c :: p.1, p.2))

/-- Whitespace test used by Python `str.strip()`. -/
def pyIsSpace (c : Char) : Bool :=
  decide (c = ' ') || decide (c = '\t') || decide (c = '\n') || decide (c = '\r') ||
    decide (c = Char.ofNat 11) || decide (c = Char.ofNat 12)

/-- Python `str.strip()`: drop whitespace from both ends. -/
def pyStrip (s : List Char) : List Char :=
  ((s.dropWhile pyIsSpace).reverse.dropWhile pyIsSpace).reverse

/-- Python `str.lower()`. -/
def pyLower (s : List Char) : List Char := s.map Char.toLower

/-! ## Script sandbox (`src/modules/script_Runner.py`) -/

/-- The backtick character. -/
def btick : Char := Char.ofNat 96

/-- The opening fence marker searched for by `run_python_code` (the string
is spelled out character by character so that proofs can destructure it). -/
def fencePy : List Char := [btick, btick, btick, 'p', 'y', 't', 'h', 'o', 'n']

/-- The closing fence marker. -/
def fenceBt : List Char := [btick, btick, btick]

/-- Fence stripping performed at the top of `run_python_code`
(script_Runner.py lines 86–93): when ```` ```python ```` occurs in the text,
keep exactly what stands between the first ```` ```python ```` and the next
```` ``` ```` (everything after the opening marker when there is no closing
marker); otherwise the text is left unchanged. -/
def stripFence (code : List Char) : List Char :=
  match splitFirst fencePy code with
  | none => code
  | some p =>
    match splitFirst fenceBt p.2 with
    | none => p.2
    | some q => q.1

/-- The text actually written to `generated_script.py` and handed to the
child interpreter. -/
def executedScriptText (code : String) : List Char := stripFence code.data

/-- One directory entry as observed after the child process exited: its
name, whether it is a regular file, its modification time and the size
observed at the k-th stability poll (`sizes 0` is the initial
`os.path.getsize` taken before the first sleep). -/
structure AfterFile where
  name : String
  isFile : Bool
  mtime : Nat
  sizes : Nat → Nat

/-- Inner stability loop of `_wait_for_new_files_stable` (lines 52–69):
starting from the last observed size, poll (`sleep; getsize`) until the size
is unchanged across two consecutive polls, giving up when the total wait
budget (`fuel` polls) is exhausted. -/
def stabilizeAux (sizes : Nat → Nat) : Nat → Nat → Nat → Bool
  | _, _, 0 => false
  | last, k, fuel + 1 =>
    if sizes k = last then true
    else stabilizeAux sizes (sizes k) (k + 1) fuel

/-- Whether a candidate file reaches a stable size within the poll budget. -/
def isStable (f : AfterFile) (fuel : Nat) : Bool :=
  stabilizeAux f.sizes (f.sizes 0) 1 fuel

/-- Result of `_wait_for_new_files_stable`: the returned (stable) file names
and the names for which the stability wait timed out and a warning was
logged. -/
structure WaitResult where
  stable : List String
  warnings : List String
  deriving DecidableEq, Repr

/-- `_wait_for_new_files_stable(before_set, directory, ...)`: candidates are
the directory entries not present in the pre-launch snapshot; directories
are skipped; each candidate file is polled for size stability; only the
stable ones are returned, the never-stabilizing ones are logged as a
timeout warning. -/
def wait_for_new_files_stable (before : List String) (after : List AfterFile)
    (fuel : Nat) : WaitResult :=
  let candidates := (after.filter (fun f => !(memName f.name before))).filter
    (fun f => f.isFile)
  { stable := (candidates.filter (fun f => isStable f fuel)).map (fun f => f.name)
    warnings := (candidates.filter (fun f => !(isStable f fuel))).map (fun f => f.name) }

/-- Extension allow-list check of `run_python_code` (line 177):
`name.lower().endswith(('.png', '.jpg', '.jpeg', '.svg', '.gif', '.pdf',
'.csv', '.txt', '.sql'))`. -/
def isInterestingName (n : String) : Bool :=
  [".png", ".jpg", ".jpeg", ".svg", ".gif", ".pdf", ".csv", ".txt", ".sql"].any
    (fun e => e.data.isSuffixOf (pyLower n.data))

/-- Artifact list returned by `run_python_code` (lines 171–178): stable new
files, minus the generated script itself, filtered by the extension
allow-list. -/
def producedFiles (before : List String) (after : List AfterFile) (fuel : Nat) :
    List String :=
  (wait_for_new_files_stable before after fuel).stable.filter
    (fun n => if n = "generated_script.py" then false else isInterestingName n)

/-- How the attempt to write and execute the script played out; this is the
abstraction of the IO performed by `run_python_code` (lines 131–161). -/
inductive ExecOutcome where
  | writeFail (msg : String)
  | missingAfterWrite
  | launchFail (msg : String)
  | timedOut (partOut partErr : String)
  | finished (code : Int) (out err : String)
  deriving DecidableEq, Repr

/-- Inputs of one sandbox run: the execution outcome, the configured timeout
(seconds), the pre-launch directory snapshot, the post-exit directory state
and the stability poll budget. -/
structure SandboxEnv where
  outcome : ExecOutcome
  timeoutSecs : Nat
  before : List String
  after : List AfterFile
  fuel : Nat

/-- The result dictionary of `run_python_code`. -/
structure RunResult where
  returncode : Int
  stdout : String
  stderr : String
  files : List String

/-- `run_python_code` on the `Run_Space` branch (script_Runner.py lines
123–189): a failed script write or a script missing after the write yields
exit code −2, a failure to launch the child yields −3, a timeout yields −1,
and a child that ran to completion has its own exit code surfaced unchanged
together with the discovered artifact files. -/
def run_python_code (env : SandboxEnv) : RunResult :=
  match env.outcome with
  | .writeFail m =>
    { returncode := -2, stdout := "", stderr := "Script write failed: " ++ m, files := [] }
  | .missingAfterWrite =>
    { returncode := -2, stdout := ""
      stderr := "Script file not found: generated_script.py", files := [] }
  | .launchFail m =>
    { returncode := -3, stdout := "", stderr := m, files := [] }
  | .timedOut o e =>
    { returncode := -1, stdout := o
      stderr := "Timeout after " ++ toString env.timeoutSecs ++ "s\n" ++ e, files := [] }
  | .finished c o e =>
    { returncode := c, stdout := o, stderr := e
      files := producedFiles env.before env.after env.fuel }

/-- A pre-launch directory entry with its metadata, as the spec describes
the snapshot (name, size, modification time). -/
structure Snapshot where
  name : String
  size : Nat
  mtime : Nat
  deriving DecidableEq, Repr

/-- The candidate set the code computes: names listed after the run minus
names listed before.  The pre-launch snapshot taken by the code
(`before_files = set(os.listdir(run_space_dir))`, line 126) records names
only, so file metadata cannot influence the outcome. -/
def codeCandidateNames (beforeSnap : List Snapshot) (after : List AfterFile) :
    List String :=
  (after.filter (fun f => !(memName f.name (beforeSnap.map (fun b => b.name))))).map
    (fun f => f.name)

/-- Modelled from the spec: the candidate set claim C4 describes — the
set-difference of directory entries together with pre-existing files whose
modification time or size changed during the run.  This definition follows
the spec sentence and is compared against `codeCandidateNames`. -/
def specCandidateNames (beforeSnap : List Snapshot) (after : List AfterFile) :
    List String :=
  codeCandidateNames beforeSnap after ++
    (after.filter (fun f => beforeSnap.any
      (fun b => decide (b.name = f.name) &&
        (decide (b.size ≠ f.sizes 0) || decide (b.mtime ≠ f.mtime))))).map
      (fun f => f.name)

/-! ## Task registry and endpoints (`src/fapp.py`) -/

/-- A user-facing log entry (`{role, text, time}`, fapp.py lines 158–162);
timestamps are abstracted as values of a monotone clock. -/
structure LogEntry where
  role : String
  text : String
  time : Nat
  deriving DecidableEq, Repr

/-- A system log entry (`{time, text}`, fapp.py lines 54–63). -/
structure SysLogEntry where
  time : Nat
  text : String
  deriving DecidableEq, Repr

/-- One task record of the global `tasks` dictionary. -/
structure Task where
  status : String
  logs : List LogEntry
  system_logs : List SysLogEntry
  awaiting_approval : Option String
  deriving DecidableEq, Repr

/-- The process state shared by the Flask endpoints and the workers: the
task registry, the per-task approval events (the Bool is the event's set
flag) and the clock used to generate timestamps. -/
structure AppState where
  tasks : List (String × Task)
  approval_events : List (String × Bool)
  clock : Nat
  deriving DecidableEq, Repr

/-- Update the task stored under a given id, leaving other ids alone. -/
def updateTask (tid : String) (f : Task → Task) :
    List (String × Task) → List (String × Task)
  | [] => []
  | p :: rest =>
    if p.1 = tid then (p.1, f p.2) :: updateTask tid f rest
    else p :: updateTask tid f rest

/-- `add_log(task_id, text, role)` (fapp.py lines 155–162): append one
`{role, text, time}` entry to the task's log, silently doing nothing when
the id is unknown. -/
def add_log (task_id text role : String) (st : AppState) : AppState :=
  match lookupA st.tasks task_id with
  | none => st
  | some _ =>
    { st with
      tasks := updateTask task_id
        (fun t => { t with logs := t.logs ++ [⟨role, text, st.clock⟩] }) st.tasks
      clock := st.clock + 1 }

/-- `_attach_system_log(task_id, message)` (fapp.py lines 54–63): append one
`{time, text}` entry to the task's system log, silently doing nothing when
the id is unknown. -/
def attach_system_log (task_id text : String) (st : AppState) : AppState :=
  match lookupA st.tasks task_id with
  | none => st
  | some _ =>
    { st with
      tasks := updateTask task_id
        (fun t => { t with system_logs := t.system_logs ++ [⟨st.clock, text⟩] }) st.tasks
      clock := st.clock + 1 }

/-- `set_task_status` (fapp.py lines 164–167). -/
def set_task_status (task_id status : String) (st : AppState) : AppState :=
  match lookupA st.tasks task_id with
  | none => st
  | some _ =>
    { st with tasks := updateTask task_id (fun t => { t with status := status }) st.tasks }

/-- Outcome of the `/approve_action/<task_id>` endpoint: HTTP 400 for an
invalid action name, 404 for an unknown task, 409 with `ok: false` when no
approval is awaited, and 200 with `ok: true` when the live gate was fired. -/
inductive ApproveResult where
  | invalidAction
  | taskNotFound
  | noGate
  | approved
  deriving DecidableEq, Repr

/-- `approve_action` (fapp.py lines 849–882): validate the action name,
check the task exists, look up the live approval event; when one exists,
log the approval, update the status, set the event (resuming the worker)
and remove it from the live registry; when none exists, log and report
"nothing to approve". -/
def approve_action (task_id action : String) (st : AppState) :
    ApproveResult × AppState :=
  if action ≠ "create" ∧ action ≠ "insert" then (ApproveResult.invalidAction, st)
  else if (lookupA st.tasks task_id).isNone then (ApproveResult.taskNotFound, st)
  else
    match lookupA st.approval_events task_id with
    | none =>
      (ApproveResult.noGate,
        add_log task_id
          ("❌ Approve called for " ++ action ++ ", but pipeline was not awaiting approval.")
          "assistant" st)
    | some _ =>
      let st1 := add_log task_id ("User approved: " ++ action ++ ".") "user" st
      let st2 := set_task_status task_id
        ("User approved: " ++ action ++ ". Resuming...") st1
      let st3 := { st2 with
        approval_events := st2.approval_events.filter (fun p => !(decide (p.1 = task_id))) }
      (ApproveResult.approved, st3)

/-- Outcome of the `/submit_review/<task_id>` endpoint: HTTP 400, or a
started `continue_pipeline` worker, or a started `run_correction_loop`
worker. -/
inductive ReviewResult where
  | badRequest
  | approvalStarted
  | correctionsStarted
  deriving DecidableEq, Repr

/-- `submit_review` (fapp.py lines 893–924): reject missing/non-string/blank
feedback; `yes` (case-insensitive, stripped) approves and starts the
continuation worker; `no` + details starts the correction worker; `no`
without details and anything else is rejected.  The middle component of the
result records whether a background worker was started. -/
def submit_review (task_id : String) (feedback : Option String) (st : AppState) :
    ReviewResult × Bool × AppState :=
  match feedback with
  | none => (ReviewResult.badRequest, false, st)
  | some f =>
    let fs := pyStrip f.data
    if fs = [] then (ReviewResult.badRequest, false, st)
    else
      let fl := pyLower fs
      if fl = "yes".data then
        (ReviewResult.approvalStarted, true, add_log task_id "User approved schema." "user" st)
      else if listHasPre "no".data fl then
        let details := pyStrip (fs.drop 2)
        if details = [] then (ReviewResult.badRequest, false, st)
        else
          (ReviewResult.correctionsStarted, true,
            add_log task_id ("User requested corrections: " ++ String.mk details) "user" st)
      else (ReviewResult.badRequest, false, st)

/-! ## Pipeline engine (`run_processing_pipeline` / `continue_pipeline`) -/

/-- One pipeline stage as the engine sees it: the status text set before the
handler runs, the abstract outcome of invoking the handler, and the success
log line appended afterwards. -/
structure Stage where
  statusText : String
  outcome : Except String Unit
  successLog : String

/-- The per-stage engine behaviour shared by `run_processing_pipeline`
(fapp.py lines 251–293) and `continue_pipeline` (lines 367–466): set the
status, invoke the handler, append the success log line and continue — or,
on an exception `e`, set the status to `"Error: " ++ e`, append a failure
log line (`errPre` is the fixed text of the except-block's log message) and
halt without running any further stage. -/
def run_pipeline_stages (task_id errPre : String) :
    List Stage → AppState → AppState
  | [], st => st
  | s :: rest, st =>
    let st1 := set_task_status task_id s.statusText st
    match s.outcome with
    | Except.ok _ =>
      run_pipeline_stages task_id errPre rest (add_log task_id s.successLog "assistant" st1)
    | Except.error e =>
      add_log task_id ("❌ " ++ errPre ++ e) "assistant"
        (set_task_status task_id ("Error: " ++ e) st1)

/-! ## State observers -/

/-- Status of a task, if the id is known. -/
def statusOf (st : AppState) (task_id : String) : Option String :=
  (lookupA st.tasks task_id).map (fun t => t.status)

/-- Logs of a task, if the id is known. -/
def logsOf (st : AppState) (task_id : String) : Option (List LogEntry) :=
  (lookupA st.tasks task_id).map (fun t => t.logs)

/-- System logs of a task, if the id is known. -/
def sysLogsOf (st : AppState) (task_id : String) : Option (List SysLogEntry) :=
  (lookupA st.tasks task_id).map (fun t => t.system_logs)

/-- Awaiting-approval tag of a task, if the id is known. -/
def awaitingOf (st : AppState) (task_id : String) : Option (Option String) :=
  (lookupA st.tasks task_id).map (fun t => t.awaiting_approval)

/-! ## Concrete instances used by the closed theorems below -/

/-- A task parked at the "create" approval gate, as `continue_pipeline`
leaves it at lines 387–399. -/
def exTask : Task :=
  { status := "Awaiting approval: create_tables", logs := [], system_logs := []
    awaiting_approval := some "create" }

/-- A registry holding one task `"t1"` parked at the "create" gate with a
live (unset) approval event. -/
def exState : AppState :=
  { tasks := [("t1", exTask)], approval_events := [("t1", false)], clock := 0 }

/-- A sandbox run that hit the timeout. -/
def exEnvTimeout : SandboxEnv :=
  { outcome := ExecOutcome.timedOut "" "", timeoutSecs := 10000, before := []
    after := [], fuel := 0 }

/-- A freshly created output file whose size is already stable. -/
def exNewFile : AfterFile :=
  { name := "out.csv", isFile := true, mtime := 0, sizes := fun _ => 3 }

/-- A sandbox run whose child exited normally with one new stable file. -/
def exEnvFinished : SandboxEnv :=
  { outcome := ExecOutcome.finished 0 "" "", timeoutSecs := 10000, before := []
    after := [exNewFile], fuel := 1 }

/-- Pre-launch snapshot containing one file `a.csv` of size 5, mtime 10. -/
def c4Before : List Snapshot := [{ name := "a.csv", size := 5, mtime := 10 }]

/-- Post-exit state: the same `a.csv` now has size 7 and mtime 20 (it was
modified during the run) and no new file exists. -/
def c4After : List AfterFile :=
  [{ name := "a.csv", isFile := true, mtime := 20, sizes := fun _ => 7 }]

/-- A freshly created file whose size grows at every poll and never
stabilizes. -/
def c5SlowFile : AfterFile :=
  { name := "slow.csv", isFile := true, mtime := 0, sizes := fun k => k }

/-- A pipeline stage whose handler succeeds. -/
def exStageOk : Stage :=
  { statusText := "Extracting metadata...", outcome := Except.ok ()
    successLog := "✅ Metadata extracted from uploaded files." }

/-- A pipeline stage whose handler raises `"boom"`. -/
def exStageFail : Stage :=
  { statusText := "Generating dimensional model...", outcome := Except.error "boom"
    successLog := "✅ Dimensional model generated successfully." }

/-! ## Lemmas about the primitive operations -/

theorem memName_iff (n : String) (l : List String) : memName n l = true ↔ n ∈ l := by
  induction l with
  | nil => simp [memName]
  | cons m rest ih =>
    simp only [memName, List.mem_cons]
    by_cases h : m = n
    · subst h; simp
    · rw [if_neg h, ih]
      constructor
      · exact fun hr => Or.inr hr
      · rintro (rfl | hr)
        · exact absurd rfl h
        · exact hr

theorem lookupA_updateTask (tid : String) (f : Task → Task)
    (ts : List (String × Task)) (tid' : String) :
    lookupA (updateTask tid f ts) tid' =
      if tid' = tid then (lookupA ts tid').map f else lookupA ts tid' := by
  induction ts with
  | nil => simp [updateTask, lookupA]
  | cons p rest ih =>
    by_cases h1 : p.1 = tid
    · by_cases h2 : p.1 = tid'
      · have h3 : tid' = tid := by rw [← h2, h1]
        simp [updateTask, lookupA, h1, h2, h3]
      · have h2' : ¬ tid = tid' := by rw [← h1]; exact h2
        simp [updateTask, lookupA, h1, h2, h2', ih]
    · by_cases h2 : p.1 = tid'
      · have h3 : ¬ tid' = tid := by rw [← h2]; exact h1
        simp [updateTask, lookupA, h1, h2, h3]
      · simp [updateTask, lookupA, h1, h2, ih]

theorem lookupA_add_log (task_id text role : String) (st : AppState) (tid' : String) :
    lookupA (add_log task_id text role st).tasks tid' =
      if tid' = task_id then
        (lookupA st.tasks tid').map
          (fun t => { t with logs := t.logs ++ [⟨role, text, st.clock⟩] })
      else lookupA st.tasks tid' := by
  unfold add_log
  cases hl : lookupA st.tasks task_id with
  | none =>
    by_cases h : tid' = task_id
    · subst h; simp [hl]
    · rw [if_neg h]
  | some t => simp [lookupA_updateTask]

theorem lookupA_attach_system_log (task_id text : String) (st : AppState) (tid' : String) :
    lookupA (attach_system_log task_id text st).tasks tid' =
      if tid' = task_id then
        (lookupA st.tasks tid').map
          (fun t => { t with system_logs := t.system_logs ++ [⟨st.clock, text⟩] })
      else lookupA st.tasks tid' := by
  unfold attach_system_log
  cases hl : lookupA st.tasks task_id with
  | none =>
    by_cases h : tid' = task_id
    · subst h; simp [hl]
    · rw [if_neg h]
  | some t => simp [lookupA_updateTask]

theorem lookupA_set_task_status (task_id s : String) (st : AppState) (tid' : String) :
    lookupA (set_task_status task_id s st).tasks tid' =
      if tid' = task_id then
        (lookupA st.tasks tid').map (fun t => { t with status := s })
      else lookupA st.tasks tid' := by
  unfold set_task_status
  cases hl : lookupA st.tasks task_id with
  | none =>
    by_cases h : tid' = task_id
    · subst h; simp [hl]
    · rw [if_neg h]
  | some t => simp [lookupA_updateTask]

theorem add_log_events (task_id text role : String) (st : AppState) :
    (add_log task_id text role st).approval_events = st.approval_events := by
  unfold add_log; cases lookupA st.tasks task_id <;> rfl

theorem set_task_status_events (task_id s : String) (st : AppState) :
    (set_task_status task_id s st).approval_events = st.approval_events := by
  unfold set_task_status; cases lookupA st.tasks task_id <;> rfl

theorem statusOf_add_log (task_id text role : String) (st : AppState) (tid' : String) :
    statusOf (add_log task_id text role st) tid' = statusOf st tid' := by
  unfold statusOf
  rw [lookupA_add_log]
  by_cases h : tid' = task_id
  · rw [if_pos h]; cases lookupA st.tasks tid' <;> rfl
  · rw [if_neg h]

theorem awaitingOf_add_log (task_id text role : String) (st : AppState) (tid' : String) :
    awaitingOf (add_log task_id text role st) tid' = awaitingOf st tid' := by
  unfold awaitingOf
  rw [lookupA_add_log]
  by_cases h : tid' = task_id
  · rw [if_pos h]; cases lookupA st.tasks tid' <;> rfl
  · rw [if_neg h]

theorem awaitingOf_set_task_status (task_id s : String) (st : AppState) (tid' : String) :
    awaitingOf (set_task_status task_id s st) tid' = awaitingOf st tid' := by
  unfold awaitingOf
  rw [lookupA_set_task_status]
  by_cases h : tid' = task_id
  · rw [if_pos h]; cases lookupA st.tasks tid' <;> rfl
  · rw [if_neg h]

theorem logsOf_add_log (task_id text role : String) (st : AppState) (tid' : String) :
    logsOf (add_log task_id text role st) tid' =
      if tid' = task_id then
        (logsOf st tid').map (fun L => L ++ [⟨role, text, st.clock⟩])
      else logsOf st tid' := by
  unfold logsOf
  rw [lookupA_add_log]
  by_cases h : tid' = task_id
  · rw [if_pos h, if_pos h]; cases lookupA st.tasks tid' <;> rfl
  · rw [if_neg h, if_neg h]

theorem logsOf_set_task_status (task_id s : String) (st : AppState) (tid' : String) :
    logsOf (set_task_status task_id s st) tid' = logsOf st tid' := by
  unfold logsOf
  rw [lookupA_set_task_status]
  by_cases h : tid' = task_id
  · rw [if_pos h]; cases lookupA st.tasks tid' <;> rfl
  · rw [if_neg h]

theorem statusOf_set_task_status (task_id s : String) (st : AppState) (tid' : String) :
    statusOf (set_task_status task_id s st) tid' =
      if tid' = task_id then (lookupA st.tasks tid').map (fun _ => s)
      else statusOf st tid' := by
  unfold statusOf
  rw [lookupA_set_task_status]
  by_cases h : tid' = task_id
  · rw [if_pos h, if_pos h]; cases lookupA st.tasks tid' <;> rfl
  · rw [if_neg h, if_neg h]

theorem isSome_add_log (task_id text role : String) (st : AppState) (tid' : String) :
    (lookupA (add_log task_id text role st).tasks tid').isSome =
      (lookupA st.tasks tid').isSome := by
  rw [lookupA_add_log]
  by_cases h : tid' = task_id
  · rw [if_pos h]; cases lookupA st.tasks tid' <;> rfl
  · rw [if_neg h]

theorem isSome_set_task_status (task_id s : String) (st : AppState) (tid' : String) :
    (lookupA (set_task_status task_id s st).tasks tid').isSome =
      (lookupA st.tasks tid').isSome := by
  rw [lookupA_set_task_status]
  by_cases h : tid' = task_id
  · rw [if_pos h]; cases lookupA st.tasks tid' <;> rfl
  · rw [if_neg h]

theorem set_task_status_clock (task_id s : String) (st : AppState) :
    (set_task_status task_id s st).clock = st.clock := by
  unfold set_task_status; cases lookupA st.tasks task_id <;> rfl

theorem memName_eq_false_iff (n : String) (l : List String) :
    memName n l = false ↔ n ∉ l := by
  rw [← memName_iff]
  cases memName n l <;> simp

theorem lookupA_filter_ne {α : Type} (l : List (String × α)) (tid : String) :
    lookupA (l.filter (fun p => !(decide (p.1 = tid)))) tid = none := by
  induction l with
  | nil => rfl
  | cons p rest ih =>
    by_cases h : p.1 = tid
    · simp [List.filter_cons, h, ih]
    · simp [List.filter_cons, h, lookupA, ih]

/-! ## Lemmas about the approval endpoint -/

theorem approve_action_awaiting (task_id action : String) (st : AppState) (tid' : String) :
    awaitingOf (approve_action task_id action st).2 tid' = awaitingOf st tid' := by
  unfold approve_action
  by_cases h1 : action ≠ "create" ∧ action ≠ "insert"
  · rw [if_pos h1]
  · rw [if_neg h1]
    by_cases h2 : (lookupA st.tasks task_id).isNone
    · rw [if_pos h2]
    · rw [if_neg h2]
      cases hevt : lookupA st.approval_events task_id with
      | none => simp [awaitingOf_add_log]
      | some b =>
        simp only []
        show awaitingOf { set_task_status task_id _ (add_log task_id _ "user" st) with
          approval_events := _ } tid' = awaitingOf st tid'
        have e0 : ∀ (s : AppState) (ev : List (String × Bool)),
            awaitingOf { s with approval_events := ev } tid' = awaitingOf s tid' :=
          fun s ev => rfl
        rw [e0, awaitingOf_set_task_status, awaitingOf_add_log]

theorem approve_action_tasks_isSome (task_id action : String) (st : AppState) (tid' : String) :
    (lookupA (approve_action task_id action st).2.tasks tid').isSome =
      (lookupA st.tasks tid').isSome := by
  unfold approve_action
  by_cases h1 : action ≠ "create" ∧ action ≠ "insert"
  · rw [if_pos h1]
  · rw [if_neg h1]
    by_cases h2 : (lookupA st.tasks task_id).isNone
    · rw [if_pos h2]
    · rw [if_neg h2]
      cases hevt : lookupA st.approval_events task_id with
      | none => simp [isSome_add_log]
      | some b =>
        simp only []
        show (lookupA { set_task_status task_id _ (add_log task_id _ "user" st) with
          approval_events := _ }.tasks tid').isSome = (lookupA st.tasks tid').isSome
        rw [isSome_set_task_status, isSome_add_log]

theorem approve_action_approved_iff (task_id action : String) (st : AppState) :
    (approve_action task_id action st).1 = ApproveResult.approved ↔
      ((action = "create" ∨ action = "insert") ∧
        (lookupA st.tasks task_id).isSome = true ∧
        (lookupA st.approval_events task_id).isSome = true) := by
  unfold approve_action
  by_cases h1 : action ≠ "create" ∧ action ≠ "insert"
  · rw [if_pos h1]
    simp [h1.1, h1.2]
  · rw [if_neg h1]
    have hv : action = "create" ∨ action = "insert" := by tauto
    cases hl : lookupA st.tasks task_id with
    | none =>
      rw [if_pos (by rfl)]
      simp [hl]
    | some t =>
      rw [if_neg (by simp)]
      cases hevt : lookupA st.approval_events task_id with
      | none => simp [hevt]
      | some b => simp [hevt, hl, hv]

theorem approve_action_events_after_approved (task_id action : String) (st : AppState)
    (h : (approve_action task_id action st).1 = ApproveResult.approved) :
    lookupA (approve_action task_id action st).2.approval_events task_id = none := by
  obtain ⟨hv, hsome, hevtS⟩ := (approve_action_approved_iff task_id action st).mp h
  obtain ⟨t, hl⟩ := Option.isSome_iff_exists.mp hsome
  obtain ⟨b, hevt⟩ := Option.isSome_iff_exists.mp hevtS
  unfold approve_action
  rw [if_neg (by tauto)]
  rw [if_neg (by rw [hl]; simp)]
  simp only [hevt]
  exact lookupA_filter_ne _ _

theorem approve_action_noGate_of_consumed (task_id action : String) (st : AppState)
    (hv : action = "create" ∨ action = "insert")
    (hsome : (lookupA st.tasks task_id).isSome = true)
    (hnone : lookupA st.approval_events task_id = none) :
    (approve_action task_id action st).1 = ApproveResult.noGate := by
  obtain ⟨t, hl⟩ := Option.isSome_iff_exists.mp hsome
  unfold approve_action
  rw [if_neg (by tauto)]
  rw [if_neg (by rw [hl]; simp)]
  simp [hnone]

/-! ## Lemmas about size-stability polling -/

theorem stabilizeAux_of_ne (sizes : Nat → Nat) (hne : ∀ k, sizes (k + 1) ≠ sizes k) :
    ∀ fuel k, stabilizeAux sizes (sizes k) (k + 1) fuel = false := by
  intro fuel
  induction fuel with
  | zero => intro k; rfl
  | succ fuel ih =>
    intro k
    show (if sizes (k + 1) = sizes k then true
        else stabilizeAux sizes (sizes (k + 1)) (k + 2) fuel) = false
    rw [if_neg (hne k)]
    exact ih (k + 1)

theorem isStable_of_ne (f : AfterFile) (hne : ∀ k, f.sizes (k + 1) ≠ f.sizes k)
    (fuel : Nat) : isStable f fuel = false :=
  stabilizeAux_of_ne f.sizes hne fuel 0

/-! ## Lemmas about first-occurrence splitting -/

theorem listHasPre_append_self (sep t : List Char) : listHasPre sep (sep ++ t) = true := by
  induction sep with
  | nil => rfl
  | cons a s1 ih => simp [listHasPre, ih]

theorem drop_length_append (l1 l2 : List Char) : (l1 ++ l2).drop l1.length = l2 := by
  induction l1 with
  | nil => rfl
  | cons a t ih => simp [ih]

theorem splitFirst_append_self (sep t : List Char) (hsep : sep ≠ []) :
    splitFirst sep (sep ++ t) = some ([], t) := by
  cases sep with
  | nil => exact absurd rfl hsep
  | cons a s1 =>
    have hp : listHasPre (a :: s1) (a :: (s1 ++ t)) = true := by
      have h := listHasPre_append_self (a :: s1) t
      simpa using h
    rw [List.cons_append]
    simp only [splitFirst]
    rw [if_pos hp]
    simp [drop_length_append]

theorem splitFirst_cons_of_neg (sep : List Char) (c : Char) (rest : List Char)
    (h : listHasPre sep (c :: rest) = false) :
    splitFirst sep (c :: rest) = (splitFirst sep rest).map (fun p => (c :: p.1, p.2)) := by
  simp [splitFirst, h]

theorem splitFirst_cons_none (sep : List Char) (c : Char) (rest : List Char)
    (h : splitFirst sep (c :: rest) = none) :
    listHasPre sep (c :: rest) = false ∧ splitFirst sep rest = none := by
  by_cases hg : listHasPre sep (c :: rest) = true
  · simp [splitFirst, hg] at h
  · have hg' : listHasPre sep (c :: rest) = false := by simpa using hg
    refine ⟨hg', ?_⟩
    rw [splitFirst_cons_of_neg sep c rest hg'] at h
    simpa [Option.map_eq_none'] using h

theorem splitFirst_fence_append (P : List Char)
    (h1 : splitFirst fenceBt P = none)
    (h2 : P.getLast? ≠ some btick) :
    splitFirst fenceBt (P ++ fenceBt) = some (P, []) := by
  induction P with
  | nil =>
    have h := splitFirst_append_self fenceBt [] (by simp [fenceBt])
    simpa using h
  | cons c P' ih =>
    obtain ⟨hg, h1'⟩ := splitFirst_cons_none fenceBt c P' h1
    cases P' with
    | nil =>
      have hc : btick ≠ c := by
        intro hEq
        exact h2 (by simp [← hEq])
      have hg2 : listHasPre fenceBt (c :: fenceBt) = false := by
        simp [fenceBt, listHasPre, hc]
      have hself : splitFirst fenceBt fenceBt = some ([], []) := by
        have h := splitFirst_append_self fenceBt [] (by simp [fenceBt])
        simpa using h
      show splitFirst fenceBt (c :: ([] ++ fenceBt)) = some ([c], [])
      simp only [List.nil_append]
      rw [splitFirst_cons_of_neg _ _ _ hg2, hself]
      rfl
    | cons d P'' =>
      have h2' : (d :: P'').getLast? ≠ some btick := by
        rw [List.getLast?_cons_cons] at h2; exact h2
      have ihh := ih h1' h2'
      have hg2 : listHasPre fenceBt (c :: d :: (P'' ++ fenceBt)) = false := by
        cases P'' with
        | nil =>
          have hd : btick ≠ d := by
            intro hEq
            exact h2 (by simp [← hEq])
          simp [fenceBt, listHasPre, hd]
        | cons e P3 =>
          simp only [fenceBt, listHasPre, Bool.and_true, List.cons_append] at hg ⊢
          exact hg
      show splitFirst fenceBt ((c :: d :: P'') ++ fenceBt) = some (c :: d :: P'', [])
      simp only [List.cons_append] at ihh ⊢
      rw [splitFirst_cons_of_neg _ _ _ hg2, ihh]
      rfl

/-! ## The engine's error-exit state -/

theorem error_exit_state (task_id errPre e sText : String) (st : AppState)
    (hpresent : (lookupA st.tasks task_id).isSome = true) :
    statusOf (add_log task_id ("❌ " ++ errPre ++ e) "assistant"
        (set_task_status task_id ("Error: " ++ e)
          (set_task_status task_id sText st))) task_id = some ("Error: " ++ e) ∧
    logsOf (add_log task_id ("❌ " ++ errPre ++ e) "assistant"
        (set_task_status task_id ("Error: " ++ e)
          (set_task_status task_id sText st))) task_id =
      (logsOf st task_id).map
        (fun L => L ++ [⟨"assistant", "❌ " ++ errPre ++ e, st.clock⟩]) := by
  obtain ⟨t0, hl0⟩ := Option.isSome_iff_exists.mp hpresent
  constructor
  · simp [statusOf_add_log, statusOf_set_task_status, lookupA_set_task_status, hl0]
  · simp [logsOf_add_log, logsOf_set_task_status, set_task_status_clock]

/-! ## Claim theorems -/

/-- Claim C1, counterexample: with task `"t1"` parked at the `"create"` gate
(`awaiting_approval = "create"`) and a live approval event, calling Approve
with the mismatching gate name `"insert"` nevertheless succeeds (returns
`ok: true` and fires the gate), contradicting the claim that a mismatching
gate name returns false: `approve_action` never compares the action name
against the gate the task is awaiting. -/
theorem c1_counterexample :
    awaitingOf exState "t1" = some (some "create") ∧
    (approve_action "t1" "insert" exState).1 = ApproveResult.approved := by
  decide

/-- Claim C1, amended: for every task, calling Approve with a valid action
name (`"create"` or `"insert"`) succeeds whenever the task exists and a
live gate is open — regardless of which gate name the task is awaiting —
and fails when no live gate exists; the endpoint itself never modifies any
task's `awaiting_approval` field (the resumed worker clears it). -/
theorem c1_approve_gate_amended (st : AppState) (task_id action : String)
    (hv : action = "create" ∨ action = "insert") :
    ((lookupA st.tasks task_id).isSome = true →
      (lookupA st.approval_events task_id).isSome = true →
      (approve_action task_id action st).1 = ApproveResult.approved) ∧
    ((lookupA st.approval_events task_id).isNone = true →
      (approve_action task_id action st).1 ≠ ApproveResult.approved) ∧
    (∀ tid', awaitingOf (approve_action task_id action st).2 tid' = awaitingOf st tid') := by
  refine ⟨?_, ?_, fun tid' => approve_action_awaiting task_id action st tid'⟩
  · intro hs he
    exact (approve_action_approved_iff task_id action st).mpr ⟨hv, hs, he⟩
  · intro hn hap
    obtain ⟨-, -, he⟩ := (approve_action_approved_iff task_id action st).mp hap
    rw [Option.isNone_iff_eq_none] at hn
    rw [hn] at he
    simp at he

/-- Claim C1 witness: concrete instantiation of the amended theorem at the
example state. -/
theorem c1_approve_gate_amended_witness :
    (approve_action "t1" "create" exState).1 = ApproveResult.approved ∧
    awaitingOf (approve_action "t1" "create" exState).2 "t1" = awaitingOf exState "t1" :=
  ⟨(c1_approve_gate_amended exState "t1" "create" (Or.inl rfl)).1 (by decide) (by decide),
    (c1_approve_gate_amended exState "t1" "create" (Or.inl rfl)).2.2 "t1"⟩

/-- Claim C2: once a fire succeeded (`approve_action` returned ok), the gate
has been removed from the live event registry, and a subsequent fire for the
same task — before any new gate is opened — returns the non-error "nothing
to approve" outcome (HTTP 409, `ok: false`); the model is a total function,
so no exception escapes. -/
theorem c2_gate_single_shot (st : AppState) (task_id a a' : String)
    (ha' : a' = "create" ∨ a' = "insert")
    (h : (approve_action task_id a st).1 = ApproveResult.approved) :
    lookupA (approve_action task_id a st).2.approval_events task_id = none ∧
    (approve_action task_id a' (approve_action task_id a st).2).1 = ApproveResult.noGate := by
  refine ⟨approve_action_events_after_approved task_id a st h, ?_⟩
  apply approve_action_noGate_of_consumed _ _ _ ha'
  · rw [approve_action_tasks_isSome]
    exact ((approve_action_approved_iff task_id a st).mp h).2.1
  · exact approve_action_events_after_approved task_id a st h

/-- Claim C2 witness: concrete instantiation — after approving the open
"create" gate of the example state, a second fire returns "nothing to
approve". -/
theorem c2_gate_single_shot_witness :
    lookupA (approve_action "t1" "create" exState).2.approval_events "t1" = none ∧
    (approve_action "t1" "insert" (approve_action "t1" "create" exState).2).1 =
      ApproveResult.noGate :=
  c2_gate_single_shot exState "t1" "create" "insert" (Or.inr rfl) (by decide)

/-- Claim C3: every sandbox run has a populated exit code; the three
internal failure modes carry distinct negative codes (timeout −1, script
write failure −2 — also used when the script vanishes after the write —
launch failure −3), a completed child's exit code is surfaced unchanged,
and a genuine (≥ 0) child exit code never collides with the synthetic
ones. -/
theorem c3_exit_codes (env : SandboxEnv) :
    (∀ o e, env.outcome = ExecOutcome.timedOut o e → (run_python_code env).returncode = -1) ∧
    (∀ m, env.outcome = ExecOutcome.writeFail m → (run_python_code env).returncode = -2) ∧
    (env.outcome = ExecOutcome.missingAfterWrite → (run_python_code env).returncode = -2) ∧
    (∀ m, env.outcome = ExecOutcome.launchFail m → (run_python_code env).returncode = -3) ∧
    (∀ c o e, env.outcome = ExecOutcome.finished c o e → (run_python_code env).returncode = c) ∧
    ((-1 : Int) < 0 ∧ (-2 : Int) < 0 ∧ (-3 : Int) < 0 ∧ (-1 : Int) ≠ -2 ∧ (-1 : Int) ≠ -3 ∧
      (-2 : Int) ≠ -3) ∧
    (∀ c o e, env.outcome = ExecOutcome.finished c o e → 0 ≤ c →
      (run_python_code env).returncode ≠ -1 ∧ (run_python_code env).returncode ≠ -2 ∧
        (run_python_code env).returncode ≠ -3) := by
  refine ⟨?_, ?_, ?_, ?_, ?_, by norm_num, ?_⟩
  · intro o e h; simp [run_python_code, h]
  · intro m h; simp [run_python_code, h]
  · intro h; simp [run_python_code, h]
  · intro m h; simp [run_python_code, h]
  · intro c o e h; simp [run_python_code, h]
  · intro c o e h hc
    simp only [run_python_code, h]
    refine ⟨by omega, by omega, by omega⟩

/-- Claim C3 witness: a timed-out run carries exit code −1. -/
theorem c3_exit_codes_witness :
    (run_python_code exEnvTimeout).returncode = -1 :=
  (c3_exit_codes exEnvTimeout).1 "" "" rfl

/-- Claim C4, counterexample: a pre-existing file `a.csv` whose size changed
from 5 to 7 and whose mtime changed from 10 to 20 during the run is a
candidate according to the claim's description (`specCandidateNames`), but
the code's candidate set (`codeCandidateNames`, the plain name
set-difference computed from the `os.listdir` snapshots) does not contain
it — the two sets differ at this input. -/
theorem c4_counterexample :
    "a.csv" ∈ specCandidateNames c4Before c4After ∧
    "a.csv" ∉ codeCandidateNames c4Before c4After ∧
    codeCandidateNames c4Before c4After ≠ specCandidateNames c4Before c4After := by
  decide

/-- Claim C4, amended: the sandbox's candidate set is exactly the
set-difference of directory entry names (entries present after the run
minus names present before); pre-existing files whose modification time or
size changed are not candidates, because the pre-launch snapshot records
names only.  Every name the stability waiter returns comes from that
set-difference. -/
theorem c4_candidates_amended (b : List Snapshot) (a : List AfterFile) (fuel : Nat)
    (n : String) :
    (n ∈ codeCandidateNames b a ↔
      ((∃ f, f ∈ a ∧ f.name = n) ∧ n ∉ b.map (fun s => s.name))) ∧
    (n ∈ (wait_for_new_files_stable (b.map (fun s => s.name)) a fuel).stable →
      n ∈ codeCandidateNames b a) := by
  constructor
  · unfold codeCandidateNames
    constructor
    · intro hmem
      rw [List.mem_map] at hmem
      obtain ⟨f, hf, rfl⟩ := hmem
      rw [List.mem_filter] at hf
      obtain ⟨hfa, hcond⟩ := hf
      rw [Bool.not_eq_true', memName_eq_false_iff] at hcond
      exact ⟨⟨f, hfa, rfl⟩, hcond⟩
    · rintro ⟨⟨f, hfa, rfl⟩, hnot⟩
      rw [List.mem_map]
      refine ⟨f, ?_, rfl⟩
      rw [List.mem_filter]
      refine ⟨hfa, ?_⟩
      rw [Bool.not_eq_true', memName_eq_false_iff]
      exact hnot
  · intro hst
    simp only [wait_for_new_files_stable] at hst
    rw [List.mem_map] at hst
    obtain ⟨f, hf, rfl⟩ := hst
    rw [List.mem_filter] at hf
    obtain ⟨hf2, hstable⟩ := hf
    rw [List.mem_filter] at hf2
    obtain ⟨hf3, hfile⟩ := hf2
    unfold codeCandidateNames
    rw [List.mem_map]
    exact ⟨f, hf3, rfl⟩

/-- Claim C4 witness: concrete instantiation — a stable new file reported by
the waiter is indeed in the code's set-difference candidate set. -/
theorem c4_candidates_amended_witness :
    "out.csv" ∈ codeCandidateNames [] [exNewFile] :=
  (c4_candidates_amended [] [exNewFile] 1 "out.csv").2 (by decide)

/-- Claim C5, counterexample: a freshly created file whose size strictly
grows at every poll never stabilizes within the 20-poll budget; contrary to
the claim it is *not* included in the returned list — only the timeout
warning records it. -/
theorem c5_counterexample :
    "slow.csv" ∉ (wait_for_new_files_stable [] [c5SlowFile] 20).stable ∧
    "slow.csv" ∈ (wait_for_new_files_stable [] [c5SlowFile] 20).warnings := by
  decide

/-- Claim C5, amended: each candidate file's size is polled until unchanged
across two consecutive polls, bounded by the total wait budget; a candidate
file that never stabilizes within the bound is excluded from the returned
list (the function returns stable files only) and is logged with a timeout
warning instead. -/
theorem c5_unstable_excluded (before : List String) (after : List AfterFile) (fuel : Nat)
    (f : AfterFile) (hmem : f ∈ after) (hnew : memName f.name before = false)
    (hfile : f.isFile = true)
    (hnodup : (after.map (fun g => g.name)).Nodup)
    (hne : ∀ k, f.sizes (k + 1) ≠ f.sizes k) :
    f.name ∉ (wait_for_new_files_stable before after fuel).stable ∧
    f.name ∈ (wait_for_new_files_stable before after fuel).warnings := by
  have hunstable : isStable f fuel = false := isStable_of_ne f hne fuel
  constructor
  · intro hst
    simp only [wait_for_new_files_stable] at hst
    rw [List.mem_map] at hst
    obtain ⟨g, hg, hgname⟩ := hst
    rw [List.mem_filter] at hg
    obtain ⟨hg2, hgstable⟩ := hg
    rw [List.mem_filter] at hg2
    obtain ⟨hg3, hgfile⟩ := hg2
    rw [List.mem_filter] at hg3
    obtain ⟨hga, hgnew⟩ := hg3
    have hgf : g = f := List.inj_on_of_nodup_map hnodup hga hmem hgname
    rw [hgf, hunstable] at hgstable
    exact Bool.noConfusion hgstable
  · simp only [wait_for_new_files_stable]
    rw [List.mem_map]
    refine ⟨f, ?_, rfl⟩
    rw [List.mem_filter]
    refine ⟨?_, by rw [hunstable]; rfl⟩
    rw [List.mem_filter]
    refine ⟨?_, hfile⟩
    rw [List.mem_filter]
    exact ⟨hmem, by rw [hnew]; rfl⟩

/-- Claim C5 witness: concrete instantiation of the amended theorem with a
7-poll budget. -/
theorem c5_unstable_excluded_witness :
    "slow.csv" ∉ (wait_for_new_files_stable [] [c5SlowFile] 7).stable ∧
    "slow.csv" ∈ (wait_for_new_files_stable [] [c5SlowFile] 7).warnings :=
  c5_unstable_excluded [] [c5SlowFile] 7 c5SlowFile (List.mem_cons_self c5SlowFile [])
    rfl rfl (by decide) (fun k => by simp [c5SlowFile])

/-- Claim C6: when a stage handler raises `e` after any number of
successful stages, the engine sets the status to the terminal
`"Error: " ++ e`, appends a failure log entry whose text carries `e`, and
halts: the resulting state does not depend on the stages that would have
followed, and the failure path always appends its log entry (the final
logs are the previous logs extended with the failure entry). -/
theorem c6_stage_failure (st : AppState) (task_id errPre e : String)
    (sOk : List Stage) (sFail : Stage) (sPost : List Stage)
    (hpresent : (lookupA st.tasks task_id).isSome = true)
    (hok : ∀ s, s ∈ sOk → s.outcome = Except.ok ())
    (hfail : sFail.outcome = Except.error e) :
    statusOf (run_pipeline_stages task_id errPre (sOk ++ sFail :: sPost) st) task_id =
      some ("Error: " ++ e) ∧
    (∃ L t, logsOf (run_pipeline_stages task_id errPre (sOk ++ sFail :: sPost) st) task_id =
      some (L ++ [⟨"assistant", "❌ " ++ errPre ++ e, t⟩])) ∧
    (∀ sPost', run_pipeline_stages task_id errPre (sOk ++ sFail :: sPost') st =
      run_pipeline_stages task_id errPre (sOk ++ sFail :: sPost) st) := by
  induction sOk generalizing st with
  | nil =>
    simp only [List.nil_append]
    obtain ⟨t0, hl0⟩ := Option.isSome_iff_exists.mp hpresent
    obtain ⟨hstat, hlog⟩ :=
      error_exit_state task_id errPre e sFail.statusText st hpresent
    refine ⟨?_, ?_, ?_⟩
    · simp only [run_pipeline_stages, hfail]
      exact hstat
    · refine ⟨t0.logs, st.clock, ?_⟩
      simp only [run_pipeline_stages, hfail]
      rw [hlog]
      unfold logsOf
      rw [hl0]
      rfl
    · intro sPost'
      simp only [run_pipeline_stages, hfail]
  | cons s rest ih =>
    have hs : s.outcome = Except.ok () := hok s (List.mem_cons_self s rest)
    have hpres' : (lookupA (add_log task_id s.successLog "assistant"
        (set_task_status task_id s.statusText st)).tasks task_id).isSome = true := by
      rw [isSome_add_log, isSome_set_task_status]
      exact hpresent
    have hok' : ∀ x, x ∈ rest → x.outcome = Except.ok () :=
      fun x hx => hok x (List.mem_cons_of_mem s hx)
    simp only [List.cons_append, run_pipeline_stages, hs]
    exact ih _ hpres' hok'

/-- Claim C6 witness: concrete instantiation — one successful stage followed
by a stage raising `"boom"` leaves the example task in status
`"Error: boom"`. -/
theorem c6_stage_failure_witness :
    statusOf (run_pipeline_stages "t1" "Error during generation: "
        ([exStageOk] ++ exStageFail :: []) exState) "t1" = some ("Error: " ++ "boom") :=
  (c6_stage_failure exState "t1" "Error during generation: " "boom" [exStageOk]
    exStageFail [] (by decide)
    (fun s hs => by rw [List.mem_singleton] at hs; rw [hs]; rfl) rfl).1

/-- Claim C7: for an id absent from the task registry, `add_log` and
`_attach_system_log` return the state completely unchanged (and raise
nothing, being total); for a present id they append exactly one entry
carrying the generated timestamp (the current clock) to the corresponding
log sequence. -/
theorem c7_append_log (st : AppState) (task_id text role : String) :
    (lookupA st.tasks task_id = none →
      add_log task_id text role st = st ∧ attach_system_log task_id text st = st) ∧
    (∀ t, lookupA st.tasks task_id = some t →
      logsOf (add_log task_id text role st) task_id =
        some (t.logs ++ [⟨role, text, st.clock⟩]) ∧
      sysLogsOf (attach_system_log task_id text st) task_id =
        some (t.system_logs ++ [⟨st.clock, text⟩])) := by
  constructor
  · intro hn
    constructor
    · unfold add_log; rw [hn]
    · unfold attach_system_log; rw [hn]
  · intro t ht
    constructor
    · rw [logsOf_add_log, if_pos rfl]
      unfold logsOf
      rw [ht]
      rfl
    · unfold sysLogsOf
      rw [lookupA_attach_system_log, if_pos rfl, ht]
      rfl

/-- Claim C7 witness: concrete instantiation at the example state. -/
theorem c7_append_log_witness :
    logsOf (add_log "t1" "hello" "assistant" exState) "t1" =
      some (exTask.logs ++ [⟨"assistant", "hello", exState.clock⟩]) ∧
    sysLogsOf (attach_system_log "t1" "hello" exState) "t1" =
      some (exTask.system_logs ++ [⟨exState.clock, "hello"⟩]) :=
  (c7_append_log exState "t1" "hello" "assistant").2 exTask (by decide)

/-- Claim C8: the sandbox's own script file `generated_script.py` is never
part of the returned artifact file list, for any run whatsoever — the
artifact filter skips the name of the script it wrote (and the `.py`
extension is not on the allow-list either). -/
theorem c8_script_never_artifact (env : SandboxEnv) :
    "generated_script.py" ∉ (run_python_code env).files := by
  cases henv : env.outcome with
  | writeFail m => simp [run_python_code, henv]
  | missingAfterWrite => simp [run_python_code, henv]
  | launchFail m => simp [run_python_code, henv]
  | timedOut o e => simp [run_python_code, henv]
  | finished c o e =>
    simp only [run_python_code, henv]
    intro hmem
    unfold producedFiles at hmem
    rw [List.mem_filter] at hmem
    obtain ⟨-, hcond⟩ := hmem
    rw [if_pos rfl] at hcond
    exact Bool.noConfusion hcond

/-- Claim C8 witness: concrete instantiation at a finished run that did
create files. -/
theorem c8_script_never_artifact_witness :
    "generated_script.py" ∉ (run_python_code exEnvFinished).files :=
  c8_script_never_artifact exEnvFinished

/-- Claim C9: feedback that is missing/not a string (`none`), blank after
stripping, or — case-insensitively — neither `"yes"` nor `"no"` followed by
non-blank details, makes the review endpoint return the 400 error response,
start no background worker, and leave the whole registry (hence every
task's logs and status) unchanged. -/
theorem c9_invalid_feedback (st : AppState) (task_id : String) (feedback : Option String)
    (hinv : feedback = none ∨ ∃ f, feedback = some f ∧
      (pyStrip f.data = [] ∨
        (pyLower (pyStrip f.data) ≠ "yes".data ∧
          ¬(listHasPre "no".data (pyLower (pyStrip f.data)) = true ∧
            pyStrip ((pyStrip f.data).drop 2) ≠ [])))) :
    (submit_review task_id feedback st).1 = ReviewResult.badRequest ∧
    (submit_review task_id feedback st).2.1 = false ∧
    (submit_review task_id feedback st).2.2 = st := by
  rcases hinv with rfl | ⟨f, rfl, hbad⟩
  · exact ⟨rfl, rfl, rfl⟩
  · rcases hbad with hempty | ⟨hyes, hno⟩
    · simp [submit_review, hempty]
    · by_cases hstrip : pyStrip f.data = []
      · simp [submit_review, hstrip]
      · by_cases hpre : listHasPre "no".data (pyLower (pyStrip f.data)) = true
        · have hdet : pyStrip ((pyStrip f.data).drop 2) = [] := by
            by_contra hd
            exact hno ⟨hpre, hd⟩
          simp [submit_review, hstrip, hyes, hpre, hdet]
        · have hpre' : listHasPre "no".data (pyLower (pyStrip f.data)) = false := by
            simpa using hpre
          simp [submit_review, hstrip, hyes, hpre']

/-- Claim C9 witness: the feedback `"maybe"` is rejected with no state
change and no worker. -/
theorem c9_invalid_feedback_witness :
    (submit_review "t1" (some "maybe") exState).1 = ReviewResult.badRequest ∧
    (submit_review "t1" (some "maybe") exState).2.1 = false ∧
    (submit_review "t1" (some "maybe") exState).2.2 = exState :=
  c9_invalid_feedback exState "t1" (some "maybe")
    (Or.inr ⟨"maybe", rfl, Or.inr ⟨by decide, by decide⟩⟩)

/-- Claim C10, counterexample: running the sandbox on `"print(1)"` executes
exactly `"print(1)"`, but running it on the fenced
`"```python\nprint(1)```"` executes `"\nprint(1)"` — not the same script
text: the stripping keeps the newline that follows the opening fence, so
the two runs do not execute the same program text. -/
theorem c10_counterexample :
    executedScriptText "print(1)" = "print(1)".data ∧
    executedScriptText "```python\nprint(1)```" = '\n' :: "print(1)".data ∧
    executedScriptText "```python\nprint(1)```" ≠ "print(1)".data := by
  decide

/-- Claim C10, amended: for every program text `P` in which ```` ``` ````
does not occur and which does not end in a backtick, running the sandbox on
`"```python\n" ++ P ++ "```"` executes the text `'\n' :: P` — the fence
markers are stripped but the newline following the opening marker is kept —
which differs from `P` itself. -/
theorem c10_fence_strip_amended (P : List Char)
    (h1 : splitFirst fenceBt P = none)
    (h2 : P.getLast? ≠ some btick) :
    stripFence (fencePy ++ '\n' :: (P ++ fenceBt)) = '\n' :: P ∧ ('\n' :: P) ≠ P := by
  constructor
  · have e1 : splitFirst fencePy (fencePy ++ ('\n' :: (P ++ fenceBt))) =
        some ([], '\n' :: (P ++ fenceBt)) :=
      splitFirst_append_self fencePy _ (by simp [fencePy])
    have hb : btick ≠ '\n' := by decide
    have hgNl : listHasPre fenceBt ('\n' :: (P ++ fenceBt)) = false := by
      simp [fenceBt, listHasPre, hb]
    have e2 := splitFirst_cons_of_neg fenceBt '\n' (P ++ fenceBt) hgNl
    have e3 := splitFirst_fence_append P h1 h2
    simp only [stripFence, e1, e2, e3, Option.map_some']
  · intro hEq
    have hlen := congrArg List.length hEq
    simp at hlen

/-- Claim C10 witness: concrete instantiation of the amended theorem at
`P = "print(1)"`. -/
theorem c10_fence_strip_amended_witness :
    stripFence (fencePy ++ '\n' :: ("print(1)".data ++ fenceBt)) = '\n' :: "print(1)".data :=
  (c10_fence_strip_amended "print(1)".data (by decide) (by decide)).1

end QueryDbBot
